import Mathlib

/-!
Verification of the karu-kits transactional resilience layer.

This file gives a shallow embedding, in Lean 4, of the core algorithms of the
karu-kits repository (error classification, retry with backoff, circuit
breaker, context-propagated transactions, savepoint validation, health
checks) and proves or refutes the behavioural claims made about them.

Each definition is translated from a named Go function of the repository;
the file and function are cited in the doc comment.  Machine integers
(time.Duration, int) are modelled as Int, float64 arithmetic as Rat,
and fallible operations as Option.
-/

namespace KaruKits

/-! ## Error codes (src/errors/codes.go) -/

/-- Error codes of the kerrors package (src/errors/codes.go). -/
inductive Code where
  | internalErr
  | unknown
  | invalidArgument
  | notFound
  | alreadyExists
  | permission
  | unauthenticated
  | timeout
  | cancelled
  | unavailable
  | unimplemented
  | conflict
  | invalidState
  | database
  | network
  | thirdParty
  | cacheCode
  | queue
  | fileSystem
  | serialization
deriving DecidableEq, Repr

/-! ## Go error values

A Go error value relevant to the kdbx classifier is one of: a context
sentinel, a database/sql or pgx sentinel, a driver error carrying a vendor
code, a kerrors.Error (code, message and optional cause produced by
kerrors.New or kerrors.Wrap), or an unrelated error.  The kerrors.Error is
the only error type in this set whose Unwrap returns a cause, so the unwrap
chain is linear and ends in a non-kerr error. -/

inductive GoError where
  | contextCanceled
  | contextDeadlineExceeded
  | sqlErrNoRows
  | sqlErrTxDone
  | sqlErrConnDone
  | pgxErrNoRows
  /-- a pgconn.PgError carrying a SQLSTATE code -/
  | pgError (code : String)
  /-- a mysql.MySQLError carrying a numeric vendor code -/
  | mysqlError (number : Nat)
  /-- kerrors.New: a kerrors.Error with no cause -/
  | kerrBase (code : Code) (message : String)
  /-- kerrors.Wrap: a kerrors.Error wrapping a cause -/
  | kerr (code : Code) (message : String) (cause : GoError)
  | otherError (message : String)
deriving DecidableEq, Repr

/-- errors.Is for the sentinels used by the repository: walks the Unwrap
chain (only kerrors.Error unwraps) comparing against the target sentinel. -/
def errorsIs : GoError → GoError → Bool
  | .kerr c m cause, target => (GoError.kerr c m cause == target) || errorsIs cause target
  | e, target => e == target

/-- errors.As with a *kerrors.Error target: the first kerrors.Error in the
chain.  Non-kerr errors of this model do not unwrap, so no recursion is
needed past the head. -/
def asKerrCode : GoError → Option Code
  | .kerr c _ _ => some c
  | .kerrBase c _ => some c
  | _ => none

/-- errors.As with a *pgconn.PgError target: first PgError in the chain. -/
def asPgCode : GoError → Option String
  | .pgError c => some c
  | .kerr _ _ cause => asPgCode cause
  | _ => none

/-- errors.As with a *mysql.MySQLError target: first MySQLError in the chain. -/
def asMysqlNumber : GoError → Option Nat
  | .mysqlError n => some n
  | .kerr _ _ cause => asMysqlNumber cause
  | _ => none

/-! ## Driver error classification (src/kdbx/error.go) -/

/-- The switch over PostgreSQL SQLSTATE codes inside classifyPostgresError
(src/kdbx/error.go lines 103 to 187).  The default branch of the Go switch
returns kerrors.CodeDatabase. -/
def classifyPostgresCode (code : String) : Code :=
  if code = "23000" then .database
  else if code = "23001" then .invalidArgument
  else if code = "23502" then .invalidArgument
  else if code = "23503" then .invalidArgument
  else if code = "23505" then .alreadyExists
  else if code = "23514" then .invalidArgument
  else if code = "23P01" then .invalidArgument
  else if code = "40001" then .conflict
  else if code = "40P01" then .conflict
  else if code = "42501" then .permission
  else if code = "42601" then .invalidArgument
  else if code = "42701" then .invalidArgument
  else if code = "42702" then .invalidArgument
  else if code = "42703" then .invalidArgument
  else if code = "42P01" then .notFound
  else if code = "42P02" then .invalidArgument
  else if code = "53000" then .unavailable
  else if code = "53100" then .unavailable
  else if code = "53200" then .unavailable
  else if code = "53300" then .unavailable
  else if code = "54000" then .invalidArgument
  else if code = "54001" then .invalidArgument
  else if code = "54011" then .invalidArgument
  else if code = "54023" then .invalidArgument
  else if code = "57000" then .unavailable
  else if code = "57014" then .cancelled
  else if code = "57P01" then .unavailable
  else if code = "57P02" then .unavailable
  else if code = "57P03" then .unavailable
  else if code = "58000" then .internalErr
  else if code = "58030" then .unavailable
  else if code = "58P01" then .notFound
  else if code = "58P02" then .alreadyExists
  else .database

/-- The SQLSTATE codes that appear as explicit cases of the switch in
classifyPostgresError: the lookup table of the PostgreSQL driver family. -/
def pgKnownCodes : List String :=
  ["23000", "23001", "23502", "23503", "23505", "23514", "23P01",
   "40001", "40P01",
   "42501", "42601", "42701", "42702", "42703", "42P01", "42P02",
   "53000", "53100", "53200", "53300",
   "54000", "54001", "54011", "54023",
   "57000", "57014", "57P01", "57P02", "57P03",
   "58000", "58030", "58P01", "58P02"]

/-- The switch over MySQL error numbers inside classifyMySQLError
(src/kdbx/error.go lines 199 to 269).  The default branch returns
kerrors.CodeDatabase. -/
def classifyMySQLNumber (n : Nat) : Code :=
  if n = 1040 then .unavailable
  else if n = 1042 then .unavailable
  else if n = 1043 then .unavailable
  else if n = 1044 then .permission
  else if n = 1045 then .unauthenticated
  else if n = 1049 then .notFound
  else if n = 1050 then .alreadyExists
  else if n = 1051 then .notFound
  else if n = 1054 then .invalidArgument
  else if n = 1060 then .invalidArgument
  else if n = 1061 then .invalidArgument
  else if n = 1062 then .alreadyExists
  else if n = 1064 then .invalidArgument
  else if n = 1216 then .invalidArgument
  else if n = 1217 then .invalidArgument
  else if n = 1451 then .invalidArgument
  else if n = 1452 then .invalidArgument
  else if n = 1205 then .timeout
  else if n = 1213 then .conflict
  else if n = 1030 then .notFound
  else if n = 1037 then .unavailable
  else if n = 1041 then .unavailable
  else if n = 1159 then .timeout
  else if n = 1160 then .timeout
  else if n = 1142 then .permission
  else if n = 1143 then .permission
  else .database

/-- The MySQL error numbers that appear as explicit cases of the switch in
classifyMySQLError: the lookup table of the MySQL driver family. -/
def mysqlKnownNumbers : List Nat :=
  [1040, 1042, 1043, 1044, 1045, 1049, 1050, 1051, 1054, 1060, 1061, 1062,
   1064, 1216, 1217, 1451, 1452, 1205, 1213, 1030, 1037, 1041, 1159, 1160,
   1142, 1143]

/-- WrapError (src/kdbx/error.go lines 53 to 92) on a non-nil error:
checks the standard sentinels, then context errors, then the PostgreSQL
classifier, then the MySQL classifier, and defaults to CodeDatabase.
kerrors.Wrap produces a kerrors.Error with the given code wrapping err. -/
def WrapError (err : GoError) (msg : String) : GoError :=
  if errorsIs err .sqlErrNoRows || errorsIs err .pgxErrNoRows then
    .kerr .notFound msg err
  else if errorsIs err .sqlErrTxDone then
    .kerr .invalidState msg err
  else if errorsIs err .sqlErrConnDone then
    .kerr .unavailable msg err
  else if errorsIs err .contextCanceled then
    .kerr .cancelled msg err
  else if errorsIs err .contextDeadlineExceeded then
    .kerr .timeout msg err
  else
    match asPgCode err with
    | some pc => .kerr (classifyPostgresCode pc) msg err
    | none =>
      match asMysqlNumber err with
      | some n => .kerr (classifyMySQLNumber n) msg err
      | none => .kerr .database msg err

/-- IsRetryable (src/kdbx/error.go lines 273 to 300) on a non-nil error:
never retry a context cancellation; otherwise retry exactly when the
kerrors code is Unavailable, Timeout or Conflict. -/
def IsRetryable (err : GoError) : Bool :=
  if errorsIs err .contextCanceled then false
  else
    match asKerrCode err with
    | none => false
    | some c => c == .unavailable || c == .timeout || c == .conflict

/-! ## Retry loop (src/kdbx/transaction.go, withRetry lines 13 to 70)

The loop is modelled over an abstract unit of work fn whose result on its
n-th invocation (0-based) is given by a function from Nat; the context is
never cancelled and sleeping is a no-op in the model.  The returned Nat is
the total number of invocations of fn. -/

/-- One pass of the for loop of withRetry, starting at the given attempt
index with the given number of further attempts still allowed
(remaining = config.RetryAttempts - attempt). -/
def withRetryLoop (fn : Nat → Option GoError) : Nat → Nat → Option GoError × Nat
  | attempt, remaining =>
    match fn attempt with
    | none => (none, attempt + 1)
    | some err =>
      if !IsRetryable err then (some err, attempt + 1)
      else
        match remaining with
        | 0 => (some (WrapError err ("maximum retry attempts exceeded")), attempt + 1)
        | r + 1 => withRetryLoop fn (attempt + 1) r

/-- withRetry (src/kdbx/transaction.go lines 13 to 70): with
config.RetryAttempts at most 0 the function runs once and its result is
returned as is; otherwise the loop runs attempts 0 up to RetryAttempts,
returning early on success or on a non-retryable error, and wrapping the
last error once the budget is exhausted. -/
def withRetry (retryAttempts : Int) (fn : Nat → Option GoError) : Option GoError × Nat :=
  if retryAttempts ≤ 0 then (fn 0, 1)
  else withRetryLoop fn 0 retryAttempts.toNat

/-- Counters observed against the database by a transactional retry loop. -/
structure TxTrace where
  begins : Nat
  commits : Nat
  rollbacks : Nat
  invocations : Nat
deriving DecidableEq, Repr

/-- The transaction body that WithTransactionOptions passes to withRetry
(src/kdbx/transaction.go lines 141 to 160): begin a transaction, run the
user function, roll back on error, commit on success.  Begin and Commit
are modelled as succeeding; the panic path is not modelled. -/
def txAttempt (userFn : Nat → Option GoError) (i : Nat) (t : TxTrace) :
    Option GoError × TxTrace :=
  let t1 := { t with begins := t.begins + 1, invocations := t.invocations + 1 }
  match userFn i with
  | some err => (some err, { t1 with rollbacks := t1.rollbacks + 1 })
  | none => (none, { t1 with commits := t1.commits + 1 })

/-- The withRetry loop applied to the transaction body, accumulating the
begin/commit/rollback counters. -/
def withRetryTxLoop (userFn : Nat → Option GoError) :
    Nat → Nat → TxTrace → Option GoError × TxTrace
  | attempt, remaining, t =>
    match txAttempt userFn attempt t with
    | (none, t1) => (none, t1)
    | (some err, t1) =>
      if !IsRetryable err then (some err, t1)
      else
        match remaining with
        | 0 => (some (WrapError err ("maximum retry attempts exceeded")), t1)
        | r + 1 => withRetryTxLoop userFn (attempt + 1) r t1

/-- WithTransactionOptions (src/kdbx/transaction.go lines 121 to 161),
abstracted over the effective retry budget (config.RetryAttempts, or
opts.MaxRetries when that is non-negative) and the results of the user
function: runs the begin/fn/rollback-or-commit body under withRetry. -/
def WithTransactionOptions (retryAttempts : Int) (userFn : Nat → Option GoError) :
    Option GoError × TxTrace :=
  if retryAttempts ≤ 0 then txAttempt userFn 0 ⟨0, 0, 0, 0⟩
  else withRetryTxLoop userFn 0 retryAttempts.toNat ⟨0, 0, 0, 0⟩

/-! ## Backoff computation

Durations are nanosecond counts modelled as Int; the float64 arithmetic of
the source is modelled exactly over Rat, and the final conversion
time.Duration(x) truncates toward zero. -/

/-- Conversion of a float to an integer duration: truncation toward zero. -/
def goTruncQ (q : ℚ) : Int :=
  if 0 ≤ q then ⌊q⌋ else -⌊-q⌋

/-- calculateBackoff (src/kdbx/transaction.go lines 73 to 87) before the
final Duration conversion: exponential growth initial * 2 ^ attempt, capped
at maxBackoff, then jitter of plus or minus ten percent where r is the
value drawn from rand.Float64, uniform in [0, 1). -/
def calculateBackoffQ (initialBackoff : Int) (attempt : Nat) (maxBackoff : Int)
    (r : ℚ) : ℚ :=
  let backoff : ℚ := (initialBackoff : ℚ) * 2 ^ attempt
  let capped : ℚ := if backoff > (maxBackoff : ℚ) then (maxBackoff : ℚ) else backoff
  let jitter : ℚ := capped * (1 / 10) * (2 * r - 1)
  capped + jitter

/-- calculateBackoff including the final time.Duration conversion. -/
def calculateBackoff (initialBackoff : Int) (attempt : Nat) (maxBackoff : Int)
    (r : ℚ) : Int :=
  goTruncQ (calculateBackoffQ initialBackoff attempt maxBackoff r)

/-- RetryConfig of the dbx package (src/dbx/retry.go lines 23 to 30);
the strategy is the string-typed RetryStrategy. -/
structure RetryConfigDbx where
  maxAttempts : Int
  initialDelay : Int
  maxDelay : Int
  strategy : String
  multiplier : ℚ
deriving DecidableEq, Repr

/-- calculateDelay (src/dbx/retry.go lines 92 to 118).  The jitter for the
exponential_jitter strategy is rand.Int63n(exponentialDelay), which panics
when its bound is not positive: the panic is modelled as none.  The random
draw is modelled by an arbitrary natural jr, reduced modulo the bound to a
value in [0, exponentialDelay). -/
def calculateDelay (cfg : RetryConfigDbx) (attempt : Nat) (jr : Nat) : Option Int :=
  let base : Option Int :=
    if cfg.strategy = "fixed" then
      some cfg.initialDelay
    else if cfg.strategy = "exponential" then
      some (goTruncQ ((cfg.initialDelay : ℚ) * cfg.multiplier ^ attempt))
    else if cfg.strategy = "exponential_jitter" then
      let e := goTruncQ ((cfg.initialDelay : ℚ) * cfg.multiplier ^ attempt)
      if e ≤ 0 then none
      else some (e + (jr : Int) % e)
    else
      some cfg.initialDelay
  base.map (fun d => if d > cfg.maxDelay then cfg.maxDelay else d)

/-! ## Circuit breaker (src/dbx/retry.go lines 164 to 235)

Time is a nanosecond clock modelled as Int: the current call happens at
instant now, time.Since(t) is now - t, and time.Now() records now. -/

/-- CircuitBreakerState: closed, open, half-open. -/
inductive CBState where
  | closed
  | opened
  | halfOpen
deriving DecidableEq, Repr

structure CircuitBreaker where
  maxFailures : Int
  resetTimeout : Int
  failures : Int
  lastFailTime : Int
  state : CBState
deriving DecidableEq, Repr

/-- NewCircuitBreaker (src/dbx/retry.go lines 183 to 189). -/
def NewCircuitBreaker (maxFailures resetTimeout : Int) : CircuitBreaker :=
  { maxFailures := maxFailures, resetTimeout := resetTimeout,
    failures := 0, lastFailTime := 0, state := .closed }

/-- Outcome of CircuitBreaker.Execute. -/
inductive CBResult where
  /-- the sentinel ErrCircuitBreakerOpen, returned without invoking op -/
  | errCircuitBreakerOpen
  /-- the error returned by op -/
  | opError
  /-- nil -/
  | ok
deriving DecidableEq, Repr

/-- CircuitBreaker.Execute (src/dbx/retry.go lines 192 to 224).  The
operation is abstracted by whether it fails; the Bool in the result records
whether the operation was invoked. -/
def CircuitBreaker.Execute (cb : CircuitBreaker) (now : Int) (opFails : Bool) :
    CBResult × CircuitBreaker × Bool :=
  let pre : Option CircuitBreaker :=
    if cb.state = .opened then
      if now - cb.lastFailTime > cb.resetTimeout then
        some { cb with state := .halfOpen, failures := 0 }
      else none
    else some cb
  match pre with
  | none => (.errCircuitBreakerOpen, cb, false)
  | some cb1 =>
    if opFails then
      let cb2 := { cb1 with failures := cb1.failures + 1, lastFailTime := now }
      let cb3 := if cb2.failures ≥ cb2.maxFailures then { cb2 with state := .opened } else cb2
      (.opError, cb3, true)
    else
      let cb2 := if cb1.state = .halfOpen then { cb1 with state := .closed, failures := 0 } else cb1
      (.ok, cb2, true)

/-- The transition relation of Execute stated state-by-state, used to
compare Execute against the specified state machine. -/
def cbSpecStep (cb : CircuitBreaker) (now : Int) (opFails : Bool) :
    CBResult × CircuitBreaker × Bool :=
  match cb.state with
  | .closed =>
    if opFails then
      (.opError,
       { cb with failures := cb.failures + 1, lastFailTime := now,
                 state := if cb.failures + 1 ≥ cb.maxFailures then .opened else .closed },
       true)
    else (.ok, cb, true)
  | .halfOpen =>
    if opFails then
      (.opError,
       { cb with failures := cb.failures + 1, lastFailTime := now,
                 state := if cb.failures + 1 ≥ cb.maxFailures then .opened else .halfOpen },
       true)
    else (.ok, { cb with state := .closed, failures := 0 }, true)
  | .opened =>
    if now - cb.lastFailTime ≤ cb.resetTimeout then
      (.errCircuitBreakerOpen, cb, false)
    else if opFails then
      (.opError,
       { cb with failures := 1, lastFailTime := now,
                 state := if (1 : Int) ≥ cb.maxFailures then .opened else .halfOpen },
       true)
    else (.ok, { cb with state := .closed, failures := 0 }, true)

/-! ## Savepoint name validation (src/kdbx/transaction.go lines 185 to 237) -/

/-- The character loop of validateSavepointName over the characters after
the first: returns the error of the first character outside
[A-Za-z0-9_]. -/
def validateSavepointTail : List Char → Option String
  | [] => none
  | c :: cs =>
    if !((('a' ≤ c && c ≤ 'z') || ('A' ≤ c && c ≤ 'Z') || ('0' ≤ c && c ≤ '9')) || c == '_') then
      some ("savepoint name can only contain alphanumeric characters and underscores")
    else validateSavepointTail cs

/-- validateSavepointName on the character sequence of the name: rejects
the empty name, a first character outside [A-Za-z_], and any later
character outside [A-Za-z0-9_]; none means valid. -/
def validateSavepointNameChars : List Char → Option String
  | [] => some ("savepoint name cannot be empty")
  | first :: rest =>
    if !(('a' ≤ first && first ≤ 'z') || ('A' ≤ first && first ≤ 'Z') || first == '_') then
      some ("savepoint name must start with a letter or underscore")
    else validateSavepointTail rest

/-- validateSavepointName (src/kdbx/transaction.go lines 217 to 237). -/
def validateSavepointName (name : String) : Option String :=
  validateSavepointNameChars name.data

/-- Membership of a character in the range lo-hi of a regular expression
character class. -/
def inCharClass (lo hi c : Char) : Bool :=
  lo ≤ c && c ≤ hi

/-- The regular expression of the specification over a character
sequence: a leading-class character followed by trailing-class
characters. -/
def savepointRegexAcceptsChars : List Char → Bool
  | [] => false
  | c :: cs =>
    (inCharClass 'A' 'Z' c || inCharClass 'a' 'z' c || c == '_')
      && cs.all fun d =>
        inCharClass 'A' 'Z' d || inCharClass 'a' 'z' d || inCharClass '0' '9' d || d == '_'

/-- The regular expression of the specification, transcribed from its
words: a name matches [A-Za-z_][A-Za-z0-9_]*. -/
def savepointRegexAccepts (name : String) : Bool :=
  savepointRegexAcceptsChars name.data

/-- savepointTx.Savepoint (src/kdbx/transaction.go lines 185 to 192):
validate, then execute SAVEPOINT name.  The SQL sent to the database is
modelled as a list of issued statements; Exec itself is modelled as
succeeding. -/
def savepointTxSavepoint (log : List String) (name : String) :
    Option String × List String :=
  match validateSavepointName name with
  | some e => (some e, log)
  | none => (none, log ++ ["SAVEPOINT " ++ name])

/-- savepointTx.RollbackToSavepoint (src/kdbx/transaction.go lines 195 to 202). -/
def savepointTxRollbackToSavepoint (log : List String) (name : String) :
    Option String × List String :=
  match validateSavepointName name with
  | some e => (some e, log)
  | none => (none, log ++ ["ROLLBACK TO SAVEPOINT " ++ name])

/-- savepointTx.ReleaseSavepoint (src/kdbx/transaction.go lines 205 to 212). -/
def savepointTxReleaseSavepoint (log : List String) (name : String) :
    Option String × List String :=
  match validateSavepointName name with
  | some e => (some e, log)
  | none => (none, log ++ ["RELEASE SAVEPOINT " ++ name])

/-! ## Health checks (src/kdbx/health.go) -/

inductive HealthStatus where
  | healthy
  | degraded
  | unhealthy
deriving DecidableEq, Repr

/-- PoolStats (connection pool statistics), the fields consumed by the
health analysis. -/
structure PoolStats where
  acquiredConns : Int
  idleConns : Int
  totalConns : Int
  maxConns : Int
deriving DecidableEq, Repr

/-- The utilization computed by analyzePoolHealth
(src/kdbx/health.go lines 166 to 170): TotalConns over MaxConns, zero when
MaxConns is not positive. -/
def poolUtilization (s : PoolStats) : ℚ :=
  if s.maxConns > 0 then (s.totalConns : ℚ) / (s.maxConns : ℚ) else 0

/-- The status field written by analyzePoolHealth
(src/kdbx/health.go lines 178 to 183): degraded exactly when utilization
exceeds 0.8, healthy otherwise. -/
def analyzePoolDegraded (s : PoolStats) : Bool :=
  poolUtilization s > 8 / 10

/-- The issues list assembled by analyzePoolHealth
(src/kdbx/health.go lines 175 to 197). -/
def analyzePoolIssues (s : PoolStats) : List String :=
  (if poolUtilization s > 8 / 10 then ["connection pool utilization is high (>80%)"] else [])
    ++ (if s.idleConns == 0 && s.totalConns < s.maxConns then ["no idle connections available"] else [])
    ++ (if s.acquiredConns == s.totalConns && s.totalConns > 0 then ["all connections are currently in use"] else [])

/-- The overall status of HealthChecker.CheckDetailed
(src/kdbx/health.go lines 121 to 160): Unhealthy when the detailed ping
fails; otherwise Healthy, downgraded to Degraded when the pool analysis
reports degraded. -/
def checkDetailedStatus (pingOk : Bool) (s : PoolStats) : HealthStatus :=
  let base := if pingOk then HealthStatus.healthy else HealthStatus.unhealthy
  if analyzePoolDegraded s && (base == HealthStatus.healthy) then .degraded else base

/-- The claimed detailed-check status, transcribed from the specification:
Degraded when acquired over max exceeds 0.8, or when there are no idle
connections while the total is below max, given the ping succeeded;
Unhealthy whenever the ping fails. -/
def checkDetailedStatusClaimed (pingOk : Bool) (s : PoolStats) : HealthStatus :=
  if !pingOk then .unhealthy
  else if (s.maxConns > 0 && (s.acquiredConns : ℚ) / (s.maxConns : ℚ) > 8 / 10)
      || (s.idleConns == 0 && s.totalConns < s.maxConns) then .degraded
  else .healthy

/-- The detailed-check status as the code actually computes it, stated
declaratively: Unhealthy on ping failure, Degraded when TotalConns over
MaxConns exceeds 0.8, Healthy otherwise. -/
def checkDetailedStatusAmended (pingOk : Bool) (s : PoolStats) : HealthStatus :=
  if !pingOk then .unhealthy
  else if s.maxConns > 0 && (s.totalConns : ℚ) / (s.maxConns : ℚ) > 8 / 10 then .degraded
  else .healthy

/-- A HealthCheck record (src/kdbx/health.go lines 26 to 41).  The Details
map is abstracted to the two facts the claims need: whether custom check
results were written into it, and whether any of them failed. -/
structure HealthCheckRec where
  status : HealthStatus
  message : String
  timestamp : Int
  hasCustomResults : Bool
  customFailed : Bool
deriving DecidableEq, Repr

/-- The cache fields of HealthChecker (src/kdbx/health.go lines 44 to 54).
The cached *HealthCheck pointer is an address into an explicit heap so
that in-place mutation through the shared pointer is observable. -/
structure HealthCheckerState where
  cacheDuration : Int
  lastCheck : Option Nat
  lastCheckTime : Int
deriving DecidableEq, Repr

/-- The heap of HealthCheck records plus the checker state. -/
structure HealthWorld where
  heap : List HealthCheckRec
  checker : HealthCheckerState
deriving DecidableEq, Repr

/-- Allocation of a fresh HealthCheck by Check on a cache miss
(src/kdbx/health.go lines 82 to 116): ping, build a new record with
Timestamp equal to the start instant, store its address in the cache. -/
def hcFresh (w : HealthWorld) (now : Int) (pingOk : Bool) : Nat × HealthWorld :=
  let check : HealthCheckRec :=
    { status := if pingOk then .healthy else .unhealthy,
      message := if pingOk then "database is healthy" else "database health check failed",
      timestamp := now,
      hasCustomResults := false,
      customFailed := false }
  let a := w.heap.length
  (a, { heap := w.heap ++ [check],
        checker := { w.checker with lastCheck := some a, lastCheckTime := now } })

/-- HealthChecker.Check (src/kdbx/health.go lines 72 to 117): return the
cached record when one exists and time.Since(lastCheckTime) is below the
cache duration, else perform a fresh check and cache it.  The result is
the address of the returned record. -/
def hcCheck (w : HealthWorld) (now : Int) (pingOk : Bool) : Nat × HealthWorld :=
  match w.checker.lastCheck with
  | some a =>
    if now - w.checker.lastCheckTime < w.checker.cacheDuration then (a, w)
    else hcFresh w now pingOk
  | none => hcFresh w now pingOk

/-- CustomHealthChecker.CheckWithCustomChecks
(src/kdbx/health.go lines 268 to 307): run the base Check, then write the
custom results into the Details map of the returned record and downgrade
its Status field on failures.  Both writes go through the returned
pointer, hence mutate the record stored at the returned address. -/
def hcCheckWithCustomChecks (w : HealthWorld) (now : Int) (pingOk : Bool)
    (hasChecks : Bool) (anyCheckFails : Bool) : Nat × HealthWorld :=
  let r := hcCheck w now pingOk
  match r.2.heap.get? r.1 with
  | none => r
  | some c =>
    let c1 := if hasChecks then { c with hasCustomResults := true, customFailed := anyCheckFails } else c
    let c2 :=
      if hasChecks && anyCheckFails && (c1.status == HealthStatus.healthy) then
        { c1 with status := .degraded,
                  message := "database is accessible but some custom checks failed" }
      else c1
    (r.1, { r.2 with heap := r.2.heap.set r.1 c2 })

/-! ## Context-propagated transactions

Go stores values of dynamic type in a context and recovers them with type
assertions.  The three dynamic types relevant here: the concrete
transaction type returned by pgxpool.Pool.Begin (which implements the
pgx.Tx interface), the pointer-to-interface type *pgx.Tx (which does not),
and anything else. -/

inductive GoType where
  /-- the concrete dynamic type of the value returned by pgxpool.Pool.Begin -/
  | pgxpoolTx
  /-- the pointer-to-interface type *pgx.Tx -/
  | ptrPgxTx
  | otherType (n : Nat)
deriving DecidableEq, Repr

/-- Does a dynamic type implement the pgx.Tx interface?  The pool
transaction does; a pointer to the interface does not. -/
def implementsPgxTx : GoType → Bool
  | .pgxpoolTx => true
  | .ptrPgxTx => false
  | .otherType _ => false

/-- A value stored in a context slot: its dynamic type and the identity of
the transaction it carries. -/
structure DynValue where
  typ : GoType
  txId : Nat
deriving DecidableEq, Repr

/-- The unexported context key types: transactor.txKey (src/unnamed/part_027)
and kpgx.txKey (src/kpgx/tx.go) are distinct types, hence distinct keys. -/
inductive CtxKey where
  | transactorTxKey
  | kpgxTxKey
deriving DecidableEq, Repr

/-- A context: bindings, innermost first; context.WithValue prepends and
ctx.Value returns the innermost binding for the key. -/
abbrev Ctx := List (CtxKey × DynValue)

def ctxValue (ctx : Ctx) (k : CtxKey) : Option DynValue :=
  (List.find? (fun p => p.1 == k) ctx).map (fun p => p.2)

def withValue (ctx : Ctx) (k : CtxKey) (v : DynValue) : Ctx :=
  (k, v) :: ctx

/-- A concrete type assertion v.(T): succeeds exactly when the dynamic
type equals T. -/
def assertConcrete (v : DynValue) (t : GoType) : Option DynValue :=
  if v.typ = t then some v else none

/-- An interface type assertion v.(pgx.Tx): succeeds exactly when the
dynamic type implements the interface. -/
def assertPgxTxInterface (v : DynValue) : Option DynValue :=
  if implementsPgxTx v.typ then some v else none

/-- Cumulative database effects of a transactor run. -/
structure DBState where
  nextTxId : Nat
  begins : Nat
  commits : Nat
  rollbacks : Nat
deriving DecidableEq, Repr

/-- SQLTransactor.Atomically (src/unnamed/part_027 lines 24 to 52): the
nested-transaction check asserts ctx.Value(txKey{}).(*pgx.Tx), a concrete
assertion against the pointer-to-interface type; when it fails, a new
transaction is begun, the fresh pgx.Tx value (dynamic type pgxpoolTx) is
bound under txKey, fn runs with that context, and the deferred function
rolls back on error or commits on success.  Begin and Commit are modelled
as succeeding; the panic path is not modelled. -/
def Atomically (ctx : Ctx) (fn : Ctx → DBState → Option GoError × DBState)
    (st : DBState) : Option GoError × DBState :=
  match (ctxValue ctx .transactorTxKey).bind (fun v => assertConcrete v .ptrPgxTx) with
  | some _ => fn ctx st
  | none =>
    let tx : DynValue := { typ := .pgxpoolTx, txId := st.nextTxId }
    let st1 := { st with nextTxId := st.nextTxId + 1, begins := st.begins + 1 }
    let txCtx := withValue ctx .transactorTxKey tx
    let r := fn txCtx st1
    match r with
    | (some e, st2) => (some e, { st2 with rollbacks := st2.rollbacks + 1 })
    | (none, st2) => (none, { st2 with commits := st2.commits + 1 })

/-- DB.RunInTx (src/kpgx/tx.go lines 15 to 47): the nested-transaction
check asserts ctx.Value(txKey{}).(pgx.Tx), an interface assertion, which
succeeds on the stored pool transaction.  The unconditional deferred
Rollback is a no-op after Commit and is not counted. -/
def RunInTx (ctx : Ctx) (fn : Ctx → DBState → Option GoError × DBState)
    (st : DBState) : Option GoError × DBState :=
  match (ctxValue ctx .kpgxTxKey).bind assertPgxTxInterface with
  | some _ => fn ctx st
  | none =>
    let tx : DynValue := { typ := .pgxpoolTx, txId := st.nextTxId }
    let st1 := { st with nextTxId := st.nextTxId + 1, begins := st.begins + 1 }
    let txCtx := withValue ctx .kpgxTxKey tx
    let r := fn txCtx st1
    match r with
    | (some e, st2) => (some e, { st2 with rollbacks := st2.rollbacks + 1 })
    | (none, st2) => (none, { st2 with commits := st2.commits + 1 })

/-! ## Theorems -/

/-- The error classified as Conflict used by the end-to-end retry
scenario: WrapError applied to a PostgreSQL serialization failure. -/
def conflictErr : GoError :=
  WrapError (.pgError ("40001")) ("query failed")

/-- A unit of work that fails with the Conflict-classified error on its
first two invocations and succeeds on the third. -/
def failTwiceThenSucceed : Nat → Option GoError :=
  fun i => if i < 2 then some conflictErr else none

/-- Claim C1: a nested Atomically call is claimed to detect the existing
transaction handle in the context and run its function directly, so that
exactly one transaction is begun and exactly one commit or rollback occurs
across the chain.  Evaluating the code on the nested scenario refutes
this: the stored handle has the dynamic type of the pool transaction,
the inner type assertion against the pointer-to-interface type *pgx.Tx
fails, and the inner call begins, and commits or rolls back, a second
transaction (two begins and two commits on success; on an inner error,
two begins and two rollbacks instead of one rollback of a single
transaction). -/
theorem c1_nested_atomically_begins_two_transactions :
    Atomically [] (fun ctx st => Atomically ctx (fun _ s => (none, s)) st) ⟨0, 0, 0, 0⟩
        = (none, ⟨2, 2, 2, 0⟩)
      ∧ Atomically []
          (fun ctx st => Atomically ctx (fun _ s => (some (GoError.otherError ("boom")), s)) st)
          ⟨0, 0, 0, 0⟩
        = (some (GoError.otherError ("boom")), ⟨2, 2, 0, 2⟩)
      ∧ (2 : Nat) ≠ 1 := by
  decide

/-- The kpgx variant RunInTx asserts the interface type pgx.Tx instead of
*pgx.Tx, and its nested call does reuse the outer transaction: one begin,
one commit.  This is the behaviour the claim describes. -/
theorem runInTx_nested_reuses_transaction :
    RunInTx [] (fun ctx st => RunInTx ctx (fun _ s => (none, s)) st) ⟨0, 0, 0, 0⟩
      = (none, ⟨1, 1, 1, 0⟩) := by
  decide

/-- Claim C4: a function failing twice with a Conflict-classified error and
then succeeding, run with a retry budget of 3, is invoked exactly 3 times,
with a begin/rollback pair for each of the two failures and one
begin/commit for the success, and the whole operation returns nil.  This
holds both with config.RetryAttempts set to 3 and with the stricter
reading in which 3 is the total attempt budget (RetryAttempts 2). -/
theorem c4_conflict_twice_then_success :
    WithTransactionOptions 3 failTwiceThenSucceed = (none, ⟨3, 1, 2, 3⟩)
      ∧ WithTransactionOptions 2 failTwiceThenSucceed = (none, ⟨3, 1, 2, 3⟩)
      ∧ asKerrCode conflictErr = some .conflict
      ∧ IsRetryable conflictErr = true := by
  decide

/-- A breaker with maxFailures 2 and resetTimeout 10 after one failing call
at instant 0. -/
def cbDemo1 : CircuitBreaker :=
  ((NewCircuitBreaker 2 10).Execute 0 true).2.1

/-- The same breaker after a second failing call at instant 1: it is now
open. -/
def cbDemo2 : CircuitBreaker :=
  (cbDemo1.Execute 1 true).2.1

/-- Claim C2 counterexample: the claim states that in HalfOpen the next
failure moves the breaker back to Open.  With maxFailures 2, the breaker
is Open after two failures; a call at instant 20 (reset timeout elapsed)
proceeds as the HalfOpen trial call and fails, yet the resulting state is
HalfOpen, not Open, because entering HalfOpen reset the failure count to
zero and a single failure does not reach maxFailures. -/
theorem c2_counterexample :
    cbDemo2.state = CBState.opened
      ∧ 20 - cbDemo2.lastFailTime > cbDemo2.resetTimeout
      ∧ (cbDemo2.Execute 20 true).2.2 = true
      ∧ (cbDemo2.Execute 20 true).2.1.state = CBState.halfOpen
      ∧ CBState.halfOpen ≠ CBState.opened := by
  decide

/-- Claim C6 counterexample: the claim states that a vendor code outside
the lookup table classifies as Internal.  The SQLSTATE 99999 and the MySQL
number 9999 are not in the tables, and both classify as the generic
Database code, which is a different code from Internal. -/
theorem c6_counterexample :
    classifyPostgresCode ("99999") = Code.database
      ∧ classifyMySQLNumber 9999 = Code.database
      ∧ Code.database ≠ Code.internalErr
      ∧ ("99999" : String) ∉ pgKnownCodes
      ∧ (9999 : Nat) ∉ mysqlKnownNumbers := by
  decide

/-- Claim C8 counterexample: the claim states Degraded when acquired/max
exceeds 0.8 or when idle is 0 while total is below max.  For the pool
stats acquired 5, idle 0, total 5, max 10 with a successful ping, the
claim demands Degraded (idle 0, total below max) but the code reports
Healthy, since it degrades only on total/max exceeding 0.8.  Conversely
for acquired 0, idle 9, total 9, max 10 the claim demands Healthy
(acquired/max is 0 and idle is positive) but the code reports Degraded. -/
theorem c8_counterexample :
    checkDetailedStatus true ⟨5, 0, 5, 10⟩ = HealthStatus.healthy
      ∧ checkDetailedStatusClaimed true ⟨5, 0, 5, 10⟩ = HealthStatus.degraded
      ∧ checkDetailedStatus true ⟨0, 9, 9, 10⟩ = HealthStatus.degraded
      ∧ checkDetailedStatusClaimed true ⟨0, 9, 9, 10⟩ = HealthStatus.healthy
      ∧ HealthStatus.healthy ≠ HealthStatus.degraded := by
  refine ⟨?_, ?_, ?_, ?_, by decide⟩ <;>
    norm_num [checkDetailedStatus, checkDetailedStatusClaimed, analyzePoolDegraded,
      poolUtilization]

/-- The health world after a first plain Check at instant 0 against a
checker with cache duration 10: the fresh Healthy record lives at
address 0 and is both returned to the caller and cached. -/
def hwAfterFirstCheck : HealthWorld :=
  (hcCheck ⟨[], ⟨10, none, 0⟩⟩ 0 true).2

/-- Claim C9: an already-published HealthCheckResult is claimed never to be
mutated in place.  Evaluating the code refutes this: the record published
by Check at address 0 has status Healthy; a CheckWithCustomChecks at
instant 5 (within the cache TTL) with one failing custom check receives
the cached record at the same address and mutates it in place to
Degraded, so the object previously returned to the first caller, and
still cached, changes under it, and a later plain Check within the TTL
serves the mutated Degraded record. -/
theorem c9_cached_result_mutated_in_place :
    (hcCheck ⟨[], ⟨10, none, 0⟩⟩ 0 true).1 = 0
      ∧ hwAfterFirstCheck.heap.get? 0
          = some ⟨.healthy, "database is healthy", 0, false, false⟩
      ∧ (hcCheckWithCustomChecks hwAfterFirstCheck 5 true true true).1 = 0
      ∧ (hcCheckWithCustomChecks hwAfterFirstCheck 5 true true true).2.heap.get? 0
          = some ⟨.degraded, "database is accessible but some custom checks failed", 0, true, true⟩
      ∧ (hcCheck (hcCheckWithCustomChecks hwAfterFirstCheck 5 true true true).2 7 true).1 = 0
      ∧ HealthStatus.healthy ≠ HealthStatus.degraded := by
  decide

/-- Claim C2 as amended: Execute implements exactly the per-state
transition relation of the code, namely: a failure in Closed or HalfOpen
increments the failure count, records the failure time, and moves to Open
exactly when the incremented count reaches maxFailures (entering HalfOpen
reset the count to zero, so a HalfOpen failure reopens immediately only
when maxFailures is at most 1); while Open with at most resetTimeout
elapsed since the last failure, the sentinel is returned without invoking
the operation; once strictly more than resetTimeout has elapsed the call
proceeds as the HalfOpen trial call with the count reset; a success in
HalfOpen (including the trial call) moves to Closed with count zero, and a
success in Closed leaves the breaker unchanged. -/
theorem c2_amended (cb : CircuitBreaker) (now : Int) (opFails : Bool) :
    cb.Execute now opFails = cbSpecStep cb now opFails := by
  rcases cb with ⟨mf, rt, f, lft, st⟩
  cases st <;> cases opFails <;>
    simp only [CircuitBreaker.Execute, cbSpecStep] <;>
    split_ifs <;> simp_all <;> omega

/-- Claim C3 counterexample: the claim bounds the computed backoff delay by
cfg.MaxBackoff for every attempt, valid configuration and random draw.
With InitialBackoff and MaxBackoff both 100, attempt 0 and the random
draw 9/10 (a legal value of rand.Float64), calculateBackoff of the kdbx
package returns 108, which exceeds MaxBackoff: the ten percent jitter is
applied after the cap. -/
theorem c3_counterexample :
    calculateBackoff 100 0 100 (9 / 10) = 108
      ∧ ¬(calculateBackoff 100 0 100 (9 / 10) ≤ 100)
      ∧ (0 : ℚ) ≤ 9 / 10 ∧ (9 : ℚ) / 10 < 1 ∧ (0 : Int) ≤ 100 := by
  norm_num [calculateBackoff, calculateBackoffQ, goTruncQ]

/-- Claim C8 as amended: the detailed health check reports Unhealthy
exactly when the ping fails; with a successful ping it reports Degraded
exactly when TotalConns over MaxConns exceeds 0.8 (with positive
MaxConns), and Healthy otherwise.  The condition of no idle connections
below max only contributes an issue string and never changes the
status, and the ratio uses total connections, not acquired ones. -/
theorem c8_amended (pingOk : Bool) (s : PoolStats) :
    checkDetailedStatus pingOk s = checkDetailedStatusAmended pingOk s := by
  cases pingOk <;>
    simp only [checkDetailedStatus, checkDetailedStatusAmended, analyzePoolDegraded,
      poolUtilization] <;>
    split_ifs <;> simp_all <;> (try casesm* _ ∧ _) <;> linarith

/-- Claim C6 as amended: for every driver error whose vendor code is not
in the lookup table of its driver family, classification returns the
generic Database kind (kerrors.CodeDatabase), not Internal. -/
theorem c6_amended :
    (∀ c : String, c ∉ pgKnownCodes → classifyPostgresCode c = Code.database)
      ∧ (∀ n : Nat, n ∉ mysqlKnownNumbers → classifyMySQLNumber n = Code.database) := by
  constructor
  · intro c hc
    simp only [pgKnownCodes, List.mem_cons, List.mem_singleton, not_or] at hc
    obtain ⟨n1, n2, n3, n4, n5, n6, n7, n8, n9, n10, n11, n12, n13, n14, n15, n16,
      n17, n18, n19, n20, n21, n22, n23, n24, n25, n26, n27, n28, n29, n30, n31,
      n32, n33, -⟩ := hc
    unfold classifyPostgresCode
    rw [if_neg n1, if_neg n2, if_neg n3, if_neg n4, if_neg n5, if_neg n6, if_neg n7,
      if_neg n8, if_neg n9, if_neg n10, if_neg n11, if_neg n12, if_neg n13,
      if_neg n14, if_neg n15, if_neg n16, if_neg n17, if_neg n18, if_neg n19,
      if_neg n20, if_neg n21, if_neg n22, if_neg n23, if_neg n24, if_neg n25,
      if_neg n26, if_neg n27, if_neg n28, if_neg n29, if_neg n30, if_neg n31,
      if_neg n32, if_neg n33]
  · intro n hn
    simp only [mysqlKnownNumbers, List.mem_cons, List.mem_singleton, not_or] at hn
    obtain ⟨m1, m2, m3, m4, m5, m6, m7, m8, m9, m10, m11, m12, m13, m14, m15, m16,
      m17, m18, m19, m20, m21, m22, m23, m24, m25, m26, -⟩ := hn
    unfold classifyMySQLNumber
    rw [if_neg m1, if_neg m2, if_neg m3, if_neg m4, if_neg m5, if_neg m6, if_neg m7,
      if_neg m8, if_neg m9, if_neg m10, if_neg m11, if_neg m12, if_neg m13,
      if_neg m14, if_neg m15, if_neg m16, if_neg m17, if_neg m18, if_neg m19,
      if_neg m20, if_neg m21, if_neg m22, if_neg m23, if_neg m24, if_neg m25,
      if_neg m26]

/-- Witness for c6_amended at the concrete unknown codes 99999 and 9999. -/
theorem c6_amended_witness :
    classifyPostgresCode ("99999") = Code.database
      ∧ classifyMySQLNumber 9999 = Code.database :=
  ⟨c6_amended.1 ("99999") (by decide), c6_amended.2 9999 (by decide)⟩

/-- Claim C3 as amended: the computed delay is always at least 0, and it is
bounded by MaxBackoff only for calculateDelay of the dbx package, which
caps after adding jitter; calculateBackoff of the kdbx package caps before
adding its plus-or-minus ten percent jitter, so its delay is bounded by
11/10 of MaxBackoff (and can exceed MaxBackoff itself, see the
counterexample). -/
theorem c3_amended :
    (∀ (ib mb : Int) (attempt : Nat) (r : ℚ), 0 ≤ ib → 0 ≤ mb → 0 ≤ r → r < 1 →
        0 ≤ calculateBackoff ib attempt mb r
          ∧ (calculateBackoff ib attempt mb r : ℚ) ≤ 11 / 10 * (mb : ℚ))
      ∧ (∀ (cfg : RetryConfigDbx) (attempt jr : Nat) (d : Int),
          0 ≤ cfg.initialDelay → 0 ≤ cfg.maxDelay → 0 ≤ cfg.multiplier →
          calculateDelay cfg attempt jr = some d →
          0 ≤ d ∧ d ≤ cfg.maxDelay) := by
  constructor
  · intro ib mb attempt r hib hmb hr0 hr1
    have hb : (0 : ℚ) ≤ (ib : ℚ) * 2 ^ attempt := by positivity
    set b : ℚ := (ib : ℚ) * 2 ^ attempt with hbdef
    have hcap0 : (0 : ℚ) ≤ (if b > (mb : ℚ) then (mb : ℚ) else b) := by
      split_ifs <;> [exact_mod_cast hmb; exact hb]
    have hcapm : (if b > (mb : ℚ) then (mb : ℚ) else b) ≤ (mb : ℚ) := by
      split_ifs with h
      · exact le_refl _
      · exact le_of_not_lt h
    set c : ℚ := (if b > (mb : ℚ) then (mb : ℚ) else b) with hcdef
    have hq0 : (0 : ℚ) ≤ c + c * (1 / 10) * (2 * r - 1) := by nlinarith
    have hq1 : c + c * (1 / 10) * (2 * r - 1) ≤ 11 / 10 * (mb : ℚ) := by nlinarith
    have heq : calculateBackoff ib attempt mb r = ⌊c + c * (1 / 10) * (2 * r - 1)⌋ := by
      rw [calculateBackoff, calculateBackoffQ, goTruncQ, if_pos]
      exact hq0
    constructor
    · rw [heq]
      exact Int.le_floor.mpr (by exact_mod_cast hq0)
    · rw [heq]
      exact le_trans (Int.floor_le _) hq1
  · intro cfg attempt jr d hid hmd hmu hd
    have hexp : (0 : ℚ) ≤ (cfg.initialDelay : ℚ) * cfg.multiplier ^ attempt := by positivity
    have htr : 0 ≤ goTruncQ ((cfg.initialDelay : ℚ) * cfg.multiplier ^ attempt) := by
      rw [goTruncQ, if_pos hexp]
      exact Int.le_floor.mpr (by exact_mod_cast hexp)
    simp only [calculateDelay] at hd
    split_ifs at hd with h1 h2 h3 h4
    · simp only [Option.map_some'] at hd
      injection hd with hd
      subst hd
      constructor
      · split_ifs <;> omega
      · split_ifs <;> omega
    · simp only [Option.map_some'] at hd
      injection hd with hd
      subst hd
      constructor
      · split_ifs <;> omega
      · split_ifs <;> omega
    · simp only [Option.map_none'] at hd
      exact absurd hd (by simp)
    · simp only [Option.map_some'] at hd
      injection hd with hd
      subst hd
      have hmod : 0 ≤ (jr : Int) % (goTruncQ ((cfg.initialDelay : ℚ) * cfg.multiplier ^ attempt)) := by
        apply Int.emod_nonneg
        omega
      constructor
      · split_ifs <;> omega
      · split_ifs <;> omega
    · simp only [Option.map_some'] at hd
      injection hd with hd
      subst hd
      constructor
      · split_ifs <;> omega
      · split_ifs <;> omega

/-- Witness for c3_amended: the kdbx bound at initial 50, max 100,
attempt 1, random draw 1/2, and the dbx bound at a fixed-strategy
configuration with delay 100 and cap 5000. -/
theorem c3_amended_witness :
    (0 ≤ calculateBackoff 50 1 100 (1 / 2)
        ∧ (calculateBackoff 50 1 100 (1 / 2) : ℚ) ≤ 11 / 10 * ((100 : Int) : ℚ))
      ∧ (0 ≤ (100 : Int) ∧ (100 : Int) ≤ (5000 : Int)) :=
  ⟨c3_amended.1 50 100 1 (1 / 2) (by norm_num) (by norm_num) (by norm_num) (by norm_num),
   c3_amended.2 ⟨3, 100, 5000, "fixed", 2⟩ 0 0 100 (by norm_num) (by norm_num)
     (by norm_num) (by decide)⟩

/-- Claim C10: under the exponential-jitter strategy, delay computation is
total exactly when the truncated exponential delay is strictly positive:
the jitter is drawn with rand.Int63n on the exponential delay, which
panics (modelled as none) on a non-positive bound, and a configuration
with InitialDelay 0 always panics. -/
theorem c10_jitter_panics_on_nonpositive_delay :
    (∀ (cfg : RetryConfigDbx) (attempt jr : Nat), cfg.strategy = "exponential_jitter" →
        (calculateDelay cfg attempt jr = none
          ↔ goTruncQ ((cfg.initialDelay : ℚ) * cfg.multiplier ^ attempt) ≤ 0))
      ∧ (∀ (ma md : Int) (mu : ℚ) (attempt jr : Nat),
          calculateDelay ⟨ma, 0, md, "exponential_jitter", mu⟩ attempt jr = none) := by
  constructor
  · intro cfg attempt jr h
    simp only [calculateDelay, h]
    norm_num
    split_ifs <;> simp_all
  · intro ma md mu attempt jr
    simp [calculateDelay, goTruncQ]

/-- Witness for c10_jitter_panics_on_nonpositive_delay at a concrete
jitter-strategy configuration, and at InitialDelay 0 concretely. -/
theorem c10_witness :
    (calculateDelay ⟨3, 100, 5000, "exponential_jitter", 2⟩ 1 7 = none
        ↔ goTruncQ (((100 : Int) : ℚ) * (2 : ℚ) ^ (1 : Nat)) ≤ 0)
      ∧ calculateDelay ⟨3, 0, 5000, "exponential_jitter", 2⟩ 0 7 = none :=
  ⟨c10_jitter_panics_on_nonpositive_delay.1 ⟨3, 100, 5000, "exponential_jitter", 2⟩ 1 7 rfl,
   c10_jitter_panics_on_nonpositive_delay.2 3 5000 2 0 7⟩

/-- The leading character class of the validator equals the leading class
[A-Za-z_] of the regular expression. -/
theorem leadClass_comm (c : Char) :
    (('a' ≤ c && c ≤ 'z') || ('A' ≤ c && c ≤ 'Z') || c == '_')
      = (inCharClass 'A' 'Z' c || inCharClass 'a' 'z' c || c == '_') := by
  simp only [inCharClass]
  cases h1 : ('a' ≤ c : Bool) <;> cases h2 : (c ≤ 'z' : Bool) <;>
    cases h3 : ('A' ≤ c : Bool) <;> cases h4 : (c ≤ 'Z' : Bool) <;>
    cases h5 : (c == '_') <;> rfl

/-- The trailing character class of the validator equals the trailing
class [A-Za-z0-9_] of the regular expression. -/
theorem tailClass_comm (c : Char) :
    ((('a' ≤ c && c ≤ 'z') || ('A' ≤ c && c ≤ 'Z') || ('0' ≤ c && c ≤ '9')) || c == '_')
      = (inCharClass 'A' 'Z' c || inCharClass 'a' 'z' c || inCharClass '0' '9' c || c == '_') := by
  simp only [inCharClass]
  cases h1 : ('a' ≤ c : Bool) <;> cases h2 : (c ≤ 'z' : Bool) <;>
    cases h3 : ('A' ≤ c : Bool) <;> cases h4 : (c ≤ 'Z' : Bool) <;>
    cases h5 : ('0' ≤ c : Bool) <;> cases h6 : (c ≤ '9' : Bool) <;>
    cases h7 : (c == '_') <;> rfl

/-- The tail loop of the validator accepts exactly the sequences all of
whose characters are in the trailing class. -/
theorem validateSavepointTail_eq_all (cs : List Char) :
    (validateSavepointTail cs = none)
      ↔ (cs.all (fun d =>
          inCharClass 'A' 'Z' d || inCharClass 'a' 'z' d || inCharClass '0' '9' d || d == '_') = true) := by
  induction cs with
  | nil => simp [validateSavepointTail]
  | cons c cs ih =>
    rw [validateSavepointTail, List.all_cons, tailClass_comm c]
    cases h : (inCharClass 'A' 'Z' c || inCharClass 'a' 'z' c || inCharClass '0' '9' c || c == '_')
    · simp
    · simpa using ih

/-- Claim C7: the savepoint-name validator rejects the empty string, 1abc,
a name with an injection payload, and a hyphenated name; it accepts sp_1
and _tmp; it accepts exactly the strings matching the regular expression
of the specification; and each of the three savepoint entry points runs
the validation and returns its error with no SQL statement issued when
the name is invalid. -/
theorem c7_savepoint_validation :
    (validateSavepointName ("") ≠ none
        ∧ validateSavepointName ("1abc") ≠ none
        ∧ validateSavepointName ("sp; DROP TABLE users") ≠ none
        ∧ validateSavepointName ("sp-name") ≠ none
        ∧ validateSavepointName ("sp_1") = none
        ∧ validateSavepointName ("_tmp") = none)
      ∧ (∀ name : String, validateSavepointName name = none ↔ savepointRegexAccepts name = true)
      ∧ (∀ (name : String) (log : List String), validateSavepointName name ≠ none →
          savepointTxSavepoint log name = (validateSavepointName name, log)
            ∧ savepointTxRollbackToSavepoint log name = (validateSavepointName name, log)
            ∧ savepointTxReleaseSavepoint log name = (validateSavepointName name, log)) := by
  refine ⟨by decide, ?_, ?_⟩
  · intro name
    rw [validateSavepointName, savepointRegexAccepts]
    cases hd : name.data with
    | nil => simp [validateSavepointNameChars, savepointRegexAcceptsChars]
    | cons c cs =>
      rw [validateSavepointNameChars, savepointRegexAcceptsChars, leadClass_comm c]
      cases h : (inCharClass 'A' 'Z' c || inCharClass 'a' 'z' c || c == '_')
      · simp
      · simpa using validateSavepointTail_eq_all cs
  · intro name log hbad
    rcases hv : validateSavepointName name with _ | e
    · exact absurd hv hbad
    · refine ⟨?_, ?_, ?_⟩ <;>
        simp [savepointTxSavepoint, savepointTxRollbackToSavepoint,
          savepointTxReleaseSavepoint, hv]

/-- Witness for c7_savepoint_validation: the third component applied at the
invalid name sp-name with an empty statement log. -/
theorem c7_witness :
    savepointTxSavepoint [] ("sp-name") = (validateSavepointName ("sp-name"), [])
      ∧ savepointTxRollbackToSavepoint [] ("sp-name") = (validateSavepointName ("sp-name"), [])
      ∧ savepointTxReleaseSavepoint [] ("sp-name") = (validateSavepointName ("sp-name"), []) :=
  c7_savepoint_validation.2.2 ("sp-name") [] (by decide)

/-- The kerrors code that WrapError assigns, as a function of the wrapped
error alone: the classified kind of the error. -/
def wrapErrorCode (err : GoError) : Code :=
  if errorsIs err .sqlErrNoRows || errorsIs err .pgxErrNoRows then .notFound
  else if errorsIs err .sqlErrTxDone then .invalidState
  else if errorsIs err .sqlErrConnDone then .unavailable
  else if errorsIs err .contextCanceled then .cancelled
  else if errorsIs err .contextDeadlineExceeded then .timeout
  else
    match asPgCode err with
    | some pc => classifyPostgresCode pc
    | none =>
      match asMysqlNumber err with
      | some n => classifyMySQLNumber n
      | none => .database

/-- An unwrap chain is linear with a single non-kerr end, so a chain that
contains the context cancellation sentinel contains none of the other
sentinels checked before it by WrapError. -/
theorem errorsIs_canceled_excl (e : GoError)
    (h : errorsIs e .contextCanceled = true) :
    errorsIs e .sqlErrNoRows = false ∧ errorsIs e .pgxErrNoRows = false
      ∧ errorsIs e .sqlErrTxDone = false ∧ errorsIs e .sqlErrConnDone = false := by
  induction e <;> simp_all [errorsIs]

/-- An error whose chain contains the context cancellation sentinel is
classified Cancelled by WrapError. -/
theorem wrapErrorCode_of_canceled (e : GoError)
    (h : errorsIs e .contextCanceled = true) :
    wrapErrorCode e = Code.cancelled := by
  obtain ⟨h1, h2, h3, h4⟩ := errorsIs_canceled_excl e h
  rw [wrapErrorCode, if_neg (by simp [h1, h2]), if_neg (by simp [h3]),
    if_neg (by simp [h4]), if_pos (by simp [h])]

/-- WrapError builds the kerrors.Error with the code given by
wrapErrorCode, wrapping the original error. -/
theorem wrapError_eq (e : GoError) (msg : String) :
    WrapError e msg = .kerr (wrapErrorCode e) msg e := by
  rw [WrapError, wrapErrorCode]
  split_ifs
  any_goals rfl
  rcases hpg : asPgCode e with _ | pc
  · rcases hmy : asMysqlNumber e with _ | n
    · simp [hpg, hmy]
    · simp [hpg, hmy]
  · simp [hpg]

/-- The withRetry loop on a unit of work that always fails with a
retryable error consumes the whole budget: starting at the given attempt
with r further attempts allowed, it performs r plus one more invocations
and returns the wrapped retries-exhausted error. -/
theorem withRetryLoop_allFail (e : GoError) (h : IsRetryable e = true) :
    ∀ (r a : Nat),
      withRetryLoop (fun _ => some e) a r
        = (some (WrapError e ("maximum retry attempts exceeded")), a + r + 1) := by
  intro r
  induction r with
  | zero =>
    intro a
    rw [withRetryLoop]
    simp [h]
  | succ r ih =>
    intro a
    rw [withRetryLoop]
    simp only [h, Bool.not_true, Bool.false_eq_true, if_false, ih (a + 1),
      Prod.mk.injEq]
    exact ⟨trivial, by omega⟩

/-- Claim C5: an error is retried by the retry loop exactly when its
classified kind is Conflict, Unavailable or Timeout: first, a classified
error (the output of WrapError) is IsRetryable exactly when its kind is
one of the three; second, an error classified Cancelled, InvalidArgument,
PermissionDenied, NotFound or AlreadyExists is not retryable and the
retry loop returns it after a single invocation, for every budget; third,
a retryable error genuinely is retried: on a permanently failing unit of
work the loop performs the full budget of invocations before giving up
with the retries-exhausted wrapper. -/
theorem c5_retryable_iff_transient :
    (∀ (e : GoError) (msg : String),
        IsRetryable (WrapError e msg) = true
          ↔ (wrapErrorCode e = Code.conflict ∨ wrapErrorCode e = Code.unavailable
              ∨ wrapErrorCode e = Code.timeout))
      ∧ (∀ e : GoError,
          (asKerrCode e = some Code.cancelled ∨ asKerrCode e = some Code.invalidArgument
              ∨ asKerrCode e = some Code.permission ∨ asKerrCode e = some Code.notFound
              ∨ asKerrCode e = some Code.alreadyExists) →
          IsRetryable e = false
            ∧ ∀ n : Int, withRetry n (fun _ => some e) = (some e, 1))
      ∧ (∀ (e : GoError) (n : Nat), IsRetryable e = true →
          withRetry ((n : Int) + 1) (fun _ => some e)
            = (some (WrapError e ("maximum retry attempts exceeded")), n + 2)) := by
  refine ⟨?_, ?_, ?_⟩
  · intro e msg
    rw [wrapError_eq, IsRetryable]
    cases hc : errorsIs e .contextCanceled with
    | true =>
      have hcode := wrapErrorCode_of_canceled e hc
      simp [errorsIs, hc, hcode]
    | false =>
      simp only [errorsIs, hc]
      simp [asKerrCode]
      tauto
  · intro e hcode
    have hret : IsRetryable e = false := by
      rw [IsRetryable]
      split_ifs with hcanc
      · rfl
      · rcases he : asKerrCode e with _ | c2
        · rfl
        · rcases hcode with h | h | h | h | h <;> rw [he] at h <;>
            injection h with h <;> subst h <;> rfl
    refine ⟨hret, ?_⟩
    intro n
    rw [withRetry]
    split_ifs with hn
    · rfl
    · rw [withRetryLoop]
      simp [hret]
  · intro e n h
    rw [withRetry, if_neg (by omega)]
    have ht : ((n : Int) + 1).toNat = n + 1 := by omega
    rw [ht, withRetryLoop_allFail e h (n + 1) 0]
    simp only [Prod.mk.injEq]
    exact ⟨trivial, by omega⟩

/-- Witness for c5_retryable_iff_transient: the iff at a serialization
failure, the immediate return at a NotFound-classified error with budget
3, and the budget exhaustion at a Conflict-classified error with budget
2. -/
theorem c5_witness :
    (IsRetryable (WrapError (GoError.pgError ("40001")) ("q")) = true
        ↔ (wrapErrorCode (GoError.pgError ("40001")) = Code.conflict
            ∨ wrapErrorCode (GoError.pgError ("40001")) = Code.unavailable
            ∨ wrapErrorCode (GoError.pgError ("40001")) = Code.timeout))
      ∧ (IsRetryable (GoError.kerrBase Code.notFound ("missing")) = false
          ∧ withRetry 3 (fun _ => some (GoError.kerrBase Code.notFound ("missing")))
              = (some (GoError.kerrBase Code.notFound ("missing")), 1))
      ∧ withRetry (((1 : Nat) : Int) + 1) (fun _ => some (GoError.kerrBase Code.conflict ("dl")))
          = (some (WrapError (GoError.kerrBase Code.conflict ("dl"))
              ("maximum retry attempts exceeded")), 3) :=
  ⟨c5_retryable_iff_transient.1 (GoError.pgError ("40001")) ("q"),
   ⟨(c5_retryable_iff_transient.2.1 _ (by decide)).1,
    (c5_retryable_iff_transient.2.1 _ (by decide)).2 3⟩,
   c5_retryable_iff_transient.2.2 (GoError.kerrBase Code.conflict ("dl")) 1 (by decide)⟩

end KaruKits
